import Mathlib

/-!
Shallow embedding of the twitch-bot repository (src/twitchbot/) for
verification of its specification claims.

Conventions of the embedding:
* Network responses and other external observations are inputs to the
  embedded functions (a response is a status code plus the decoded payload;
  a transport error is `none` / a raised exception is `Except.error`).
* Stateful handlers become pure functions from a state plus the iteration's
  external observations to a new state together with a list of emitted
  events (chat messages, overlay broadcasts, log lines, sleeps, task
  operations), in the order the code performs them.
* Machine integers do not overflow in any modelled path, so `Nat`/`Int`
  are used directly.
-/

namespace TwitchBot

/-! ## twitch_api.py -/

/-- Events emitted by `get_current_category` (twitch_api.py:43-69):
one `request i` per GET of the streams endpoint (`i` is the attempt
index) and one `sleep n` per `asyncio.sleep(n)`. -/
inductive CatEv where
  | request (i : Nat)
  | sleep (n : Nat)
deriving DecidableEq

/-- Python truthiness of the `game_name` field: a retry attempt returns the
value only when it is present and non-empty. -/
def isTruthyCat : Option String → Bool
  | some s => s != ""
  | none => false

/-- The `for attempt in range(5)` loop of `get_current_category`
(twitch_api.py:52-66).  `resp i` is the `game_name` observation of attempt
`i`: `none` when the response has no `data` entry (or a null field), `some s`
when the field holds `s` (possibly the empty string).  On a truthy value the
function returns it at once; otherwise it sleeps 2 and retries. -/
def categoryLoop (resp : Nat → Option String) : Nat → Nat → Option String × List CatEv
  | 0, _ => (none, [])
  | Nat.succ k, i =>
      match resp i with
      | some s =>
          if s != "" then (some s, [CatEv.request i])
          else
            let rest := categoryLoop resp k (i + 1)
            (rest.1, CatEv.request i :: CatEv.sleep 2 :: rest.2)
      | none =>
          let rest := categoryLoop resp k (i + 1)
          (rest.1, CatEv.request i :: CatEv.sleep 2 :: rest.2)

/-- `get_current_category` (twitch_api.py:43-69): up to 5 attempts, and
`None` (not a string) once the loop exhausts without a truthy value. -/
def get_current_category (resp : Nat → Option String) : Option String × List CatEv :=
  categoryLoop resp 5 0

/-- Number of HTTP requests recorded in a `get_current_category` trace. -/
def countRequests (evs : List CatEv) : Nat :=
  evs.countP fun e => match e with | CatEv.request _ => true | _ => false

/-- `is_stream_live` (twitch_api.py:27-40).  The argument is the outcome of
the single GET: `none` when the request itself raises (aiohttp transport
error — the function has no try/except, so the exception escapes, modelled
as `Except.error`), `some (status, streams)` for a response with HTTP
status `status` and decoded `data` list `streams`. -/
def is_stream_live (response : Option (Nat × List Unit)) : Except Unit Bool :=
  match response with
  | none => Except.error ()
  | some (status, streams) =>
      if status ≠ 200 then Except.ok false
      else Except.ok (decide (0 < streams.length))

/-- `delete_latest_vod` (twitch_api.py:72-116).  Inputs: the category-poll
observations `resp` (fed to `get_current_category`), the HTTP status of the
videos fetch, and the decoded list of archived VOD ids (most recent first,
the endpoint is called with `first=1&type=archive`).  The result is the list
of VOD ids for which a DELETE request is issued. -/
def delete_latest_vod (resp : Nat → Option String) (videosStatus : Nat)
    (videos : List String) : List String :=
  let category := (get_current_category resp).1
  if category ≠ some "Fitness & Health" then []
  else if videosStatus ≠ 200 then []
  else
    match videos with
    | [] => []
    | v :: _ => [v]

/-- `start_commercial` (twitch_api.py:119-142): true exactly when the POST
answers HTTP 200. The requested `length` does not affect the result. -/
def start_commercial (length : Nat) (respStatus : Nat) : Bool :=
  respStatus == 200

/-! ## bot.py — lifecycle monitor (`Bot.monitor_live_status`, bot.py:79-141) -/

/-- The monitor-owned state touched by one iteration of
`monitor_live_status`: the `is_live` flag, the `first_check` local, whether
the `ad_task` / `spotify_task` handles are set, and whether the recap sink
is configured (`RECAP_SECRET` and `DISCORD_BOT_URL` both set). -/
structure MonState where
  isLive : Bool
  firstCheck : Bool
  adTask : Bool
  spotifyTask : Bool
  recapConfigured : Bool
deriving DecidableEq

/-- Observable actions of one `monitor_live_status` iteration, in program
order.  `awaitTask` would model awaiting a cancelled task; the code never
performs it, so no path emits it. -/
inductive MonEv where
  | logInfo
  | resetRecap
  | setLive (b : Bool)
  | logMeta
  | startAdLoop (immediate : Bool)
  | startSpotify
  | flushRecap
  | logRecapSkipped
  | cleanup
  | cancelAd
  | cancelSpotify
  | awaitTask
  | sleep (n : Nat)
  | logCancelled
  | logError
deriving DecidableEq

/-- `Bot._send_recap` (bot.py:203-231): early return with a log line when
the sink is unconfigured, otherwise one POST of the recap payload. -/
def send_recap (configured : Bool) : List MonEv :=
  if configured then [MonEv.flushRecap] else [MonEv.logRecapSkipped]

/-- What the awaited probe call of a monitor iteration produced: a liveness
result, a raised `asyncio.CancelledError`, or any other exception. -/
inductive ProbeOutcome where
  | ok (live : Bool)
  | cancelledError
  | failed
deriving DecidableEq

/-- One iteration of the `while True` loop of `monitor_live_status`
(bot.py:83-141): the new state, the emitted events in program order, and
whether the loop exits (`break`).  On the offline edge (bot.py:116-131) the
code logs, sets `is_live = False`, sends the recap, runs
`delete_latest_vod`, then cancels (without awaiting) whichever of the two
task handles are set, clearing them. -/
def monitor_step (s : MonState) (o : ProbeOutcome) : MonState × List MonEv × Bool :=
  match o with
  | ProbeOutcome.cancelledError => (s, [MonEv.logCancelled], true)
  | ProbeOutcome.failed => (s, [MonEv.logError, MonEv.sleep 10], false)
  | ProbeOutcome.ok live =>
      if live && !s.isLive then
        ({ s with isLive := true, adTask := true, spotifyTask := true, firstCheck := false },
         [MonEv.resetRecap, MonEv.logInfo, MonEv.setLive true, MonEv.logMeta,
          MonEv.startAdLoop (!s.firstCheck), MonEv.startSpotify, MonEv.sleep 20],
         false)
      else if !live && s.isLive then
        ({ s with isLive := false, adTask := false, spotifyTask := false, firstCheck := false },
         [MonEv.logInfo, MonEv.setLive false]
           ++ send_recap s.recapConfigured
           ++ [MonEv.cleanup]
           ++ (if s.adTask then [MonEv.cancelAd] else [])
           ++ (if s.spotifyTask then [MonEv.cancelSpotify] else [])
           ++ [MonEv.sleep 20],
         false)
      else
        ({ s with firstCheck := false }, [MonEv.sleep 20], false)

/-! ## bot.py — now-playing poller (`Bot.monitor_spotify`, bot.py:144-200) -/

/-- Observable actions of one poll iteration of `monitor_spotify`. -/
inductive SpEv where
  | logChange
  | logStopped
  | bcastPlaying (tid : Option String)
  | bcastStopped
deriving DecidableEq

/-- One poll iteration of `monitor_spotify` (bot.py:155-186).  `last` is
`self._last_spotify_track_id`; `playing = some tid` when the playback data
is truthy with `is_playing` and an `item` whose id is `tid` (the id field
itself may be null, hence `Option String`), `playing = none` otherwise.
Per the code, the track-change log line is gated on the id comparison while
the `nowplaying` broadcast is unconditional in its branch. -/
def monitor_spotify_step (last : Option String) (playing : Option (Option String)) :
    Option String × List SpEv :=
  match playing with
  | some tid =>
      (tid, (if tid ≠ last then [SpEv.logChange] else []) ++ [SpEv.bcastPlaying tid])
  | none =>
      (none, (if last ≠ none then [SpEv.logStopped] else []) ++ [SpEv.bcastStopped])

/-- A sequence of poll iterations of `monitor_spotify`, threading
`_last_spotify_track_id` and concatenating the emitted events. -/
def monitor_spotify_run (last : Option String) :
    List (Option (Option String)) → Option String × List SpEv
  | [] => (last, [])
  | p :: ps =>
      let step := monitor_spotify_step last p
      let rest := monitor_spotify_run step.1 ps
      (rest.1, step.2 ++ rest.2)

/-- Recognizer for `nowplaying` broadcasts with `is_playing = True`. -/
def isBcastPlaying : SpEv → Bool
  | SpEv.bcastPlaying _ => true
  | _ => false

/-- Recognizer for `nowplaying` broadcasts with `is_playing = False`. -/
def isBcastStopped : SpEv → Bool
  | SpEv.bcastStopped => true
  | _ => false

/-- Whether a poll observation has something playing. -/
def isPlayingPoll : Option (Option String) → Bool
  | some _ => true
  | none => false

/-! ## bot.py — ad loop (`Bot._run_ad_loop`, bot.py:277-352) -/

/-- Observable actions of the ad loop: sleeps, the "Ad in 1 minute!"
warning, the commercial POST, the "Ad starting" and "Ad break over!"
announcements. -/
inductive AdEv where
  | sleep (n : Nat)
  | warn
  | reqCommercial (len : Nat)
  | announceStart
  | announceOver
deriving DecidableEq

/-- The body of the recurring `while self.is_live` loop (bot.py:319-345).
`l1`, `l2`, `l3` are the values `self.is_live` reads after the 59-minute,
60-second and 180-second sleeps respectively; `commOk` is the result of
`start_commercial 180`.  Returns the emitted events of this pass and
whether the loop continues (no `break` taken). -/
def adCycleBody (l1 l2 : Bool) (commOk : Bool) (l3 : Bool) : List AdEv × Bool :=
  if !l1 then ([AdEv.sleep 3540], false)
  else if !l2 then ([AdEv.sleep 3540, AdEv.warn, AdEv.sleep 60], false)
  else if !commOk then
    ([AdEv.sleep 3540, AdEv.warn, AdEv.sleep 60, AdEv.reqCommercial 180], false)
  else if !l3 then
    ([AdEv.sleep 3540, AdEv.warn, AdEv.sleep 60, AdEv.reqCommercial 180,
      AdEv.announceStart, AdEv.sleep 180], false)
  else
    ([AdEv.sleep 3540, AdEv.warn, AdEv.sleep 60, AdEv.reqCommercial 180,
      AdEv.announceStart, AdEv.sleep 180, AdEv.announceOver], true)

/-- The recurring phase of `_run_ad_loop`.  `lives i` is the `i`-th read of
`self.is_live` (the loop guard and the three post-sleep checks, in order);
`commStatus j` is the HTTP status of the `j`-th commercial POST.  `fuel`
bounds the number of passes so the unbounded loop is total; every
terminating behaviour of the code is the value at a large enough fuel. -/
def adRecurringLoop (lives : Nat → Bool) (commStatus : Nat → Nat) :
    Nat → Nat → Nat → List AdEv
  | 0, _, _ => []
  | Nat.succ fuel, li, ci =>
      if lives li then
        let body := adCycleBody (lives (li + 1)) (lives (li + 2))
          (start_commercial 180 (commStatus ci)) (lives (li + 3))
        if body.2 then body.1 ++ adRecurringLoop lives commStatus fuel (li + 4) (ci + 1)
        else body.1
      else []

/-- Number of commercial POSTs recorded in an ad-loop trace. -/
def countCommercials (evs : List AdEv) : Nat :=
  evs.countP fun e => match e with | AdEv.reqCommercial _ => true | _ => false

/-! ## bot.py — timer commands (`!lt` bot.py:355-391, `!ltlockin` bot.py:411-458) -/

/-- The bot fields touched by the two timer commands, plus a registry of
the timer tasks spawned by `asyncio.create_task`: ids of started and of
cancelled tasks per kind, and fresh-id counters.  A started task whose id
was never cancelled keeps running (its pending callbacks will fire). -/
structure TimerState where
  current_problem : Option String
  lt_task : Option Nat
  ltlock_task : Option Nat
  stream_problems : List String
  ltStarted : List Nat
  ltCancelled : List Nat
  ltNext : Nat
  lockStarted : List Nat
  lockCancelled : List Nat
  lockNext : Nat
deriving DecidableEq

/-- The bot's initial timer fields (`Bot.__init__`, bot.py:45-58). -/
def timerInit : TimerState :=
  { current_problem := none, lt_task := none, ltlock_task := none,
    stream_problems := [], ltStarted := [], ltCancelled := [], ltNext := 0,
    lockStarted := [], lockCancelled := [], lockNext := 0 }

/-- The literal part of the pattern used at bot.py:378
(`leetcode\.com/problems/([^/]+)`). -/
def problemsPat : List Char := "leetcode.com/problems/".data

/-- Left-to-right scan implementing search for the slug pattern: at each
position, the literal must match and be followed by at least one
non-slash character (the `[^/]+` group); the group then takes the maximal
run of non-slash characters.  On a failed position the scan resumes one
character later, as regex search does. -/
def scanSlug : List Char → Option (List Char)
  | [] => none
  | c :: rest =>
      if problemsPat.isPrefixOf (c :: rest) then
        match (c :: rest).drop problemsPat.length with
        | [] => scanSlug rest
        | a :: tail =>
            if a == '/' then scanSlug rest
            else some ((a :: tail).takeWhile (fun x => x != '/'))
      else scanSlug rest

/-- `re.search(r'leetcode\.com/problems/([^/]+)', url)` (bot.py:378),
returning the captured slug. -/
def extractSlug (url : String) : Option String :=
  (scanSlug url.data).map List.asString

/-- The recap slug tracking of `leetcode_timer` (bot.py:377-383): when the
url contains a problem slug not yet in `stream_problems`, append it. -/
def track_slug (url : String) (problems : List String) : List String :=
  match extractSlug url with
  | some slug => if slug ∈ problems then problems else problems ++ [slug]
  | none => problems

/-- The external observations of one `!lt` invocation: the caller's
privilege check (`is_mod or is_broadcaster or is_vip`), the parsed `url`
and `minutes` arguments, and what `self.lt_task.done()` would answer for
the currently referenced task. -/
structure LtCtx where
  privileged : Bool
  url : Option String
  minutes : Int
  ltTaskDone : Bool
deriving DecidableEq

/-- Python `str.lower()` for the ASCII strings compared by the bot,
written over the character list so it evaluates by kernel reduction. -/
def lowerStr (s : String) : String := List.asString (s.data.map Char.toLower)

/-- The clear-request test of bot.py:363 (`url and url.lower() == "clear"`,
with Python truthiness of the string). -/
def isClearArg : Option String → Bool
  | some u => u != "" && lowerStr u == "clear"
  | none => false

/-- `Bot.leetcode_timer` (`!lt`, bot.py:355-391) as a state transformer.
An unprivileged caller, a clear request, or invalid arguments leave the
timer registry unchanged except that a clear request cancels the
referenced task when it exists and is not done (the handle itself is kept).
A valid start overwrites `lt_task` with a freshly created task WITHOUT
cancelling the previous one. -/
def leetcode_timer (c : LtCtx) (s : TimerState) : TimerState :=
  if !c.privileged then s
  else if isClearArg c.url then
    let s1 :=
      match s.lt_task with
      | some id => if !c.ltTaskDone then { s with ltCancelled := s.ltCancelled ++ [id] } else s
      | none => s
    { s1 with current_problem := none }
  else
    match c.url with
    | none => s
    | some u =>
        if u == "" || decide (c.minutes ≤ 0) || decide (180 < c.minutes) then s
        else
          { s with
            current_problem := some u,
            stream_problems := track_slug u s.stream_problems,
            lt_task := some s.ltNext,
            ltStarted := s.ltStarted ++ [s.ltNext],
            ltNext := s.ltNext + 1 }

/-- The external observations of one `!ltlockin` invocation: privilege,
the raw argument list, the result of `int(args[-1])` (`none` on
`ValueError`), the label computed by `make_lockin_label` (network-derived),
and what `self.ltlock_task.done()` would answer. -/
structure LockCtx where
  privileged : Bool
  args : List String
  parsedMinutes : Option Int
  label : String
  lockTaskDone : Bool
deriving DecidableEq

/-- Chat / overlay output of `leetcode_lockin`. -/
inductive LockEv where
  | bcastStop
  | chatLocked
  | bcastStart (durationSeconds : Int) (label : String)
deriving DecidableEq

/-- `Bot.leetcode_lockin` (`!ltlockin`, bot.py:411-458).  A clear request
cancels the referenced task when it exists and is not done and always
broadcasts `stop`.  A valid start sends the chat line, broadcasts `start`,
and overwrites `ltlock_task` with a freshly created task WITHOUT
cancelling the previous one. -/
def leetcode_lockin (c : LockCtx) (s : TimerState) : TimerState × List LockEv :=
  if !c.privileged then (s, [])
  else if c.args.length == 1 && lowerStr (c.args.headD "") == "clear" then
    let s1 :=
      match s.ltlock_task with
      | some id => if !c.lockTaskDone then { s with lockCancelled := s.lockCancelled ++ [id] } else s
      | none => s
    (s1, [LockEv.bcastStop])
  else if c.args.length < 2 then (s, [])
  else
    match c.parsedMinutes with
    | none => (s, [])
    | some m =>
        if decide (m ≤ 0) || decide (180 < m) then (s, [])
        else
          let target := (String.intercalate " " c.args.dropLast).trim
          ({ s with
             current_problem := some target,
             ltlock_task := some s.lockNext,
             lockStarted := s.lockStarted ++ [s.lockNext],
             lockNext := s.lockNext + 1 },
           [LockEv.chatLocked, LockEv.bcastStart (m * 60) c.label])

/-- Timer tasks of the `!lt` kind that are still running (started, never
cancelled): their scheduled callbacks are still pending. -/
def ltActive (s : TimerState) : List Nat :=
  s.ltStarted.filter fun id => decide (id ∉ s.ltCancelled)

/-- Timer tasks of the `!ltlockin` kind that are still running. -/
def lockActive (s : TimerState) : List Nat :=
  s.lockStarted.filter fun id => decide (id ∉ s.lockCancelled)

/-! ## bot.py — submission collector (`Bot.event_message`, bot.py:239-264) -/

/-- One entry of `self.chatter_submissions`. -/
structure Submission where
  twitch_user : String
  url : String
  slug : String
deriving DecidableEq

/-- The recap-collection fields touched by `event_message`:
`chatter_submissions` and `_seen_submissions`. -/
structure RecapState where
  chatter_submissions : List Submission
  seen_submissions : List (String × String)
deriving DecidableEq

/-- The reset performed at the live edge (bot.py:90-91): both empty. -/
def recapInit : RecapState := { chatter_submissions := [], seen_submissions := [] }

/-- URL normalization of bot.py:250: `match.group(0).rstrip("/") + "/"`. -/
def normalizeUrl (raw : String) : String :=
  List.asString ((raw.data.reverse.dropWhile fun ch => ch == '/').reverse ++ ['/'])

/-- Processing of one regex match (bot.py:248-262).  `m` is the pair of the
captured slug and the full matched text; the dedup key is the lowercased
author together with the normalized url, and an unseen key appends one
submission and records the key. -/
def processMatch (author : String) (m : String × String) (s : RecapState) : RecapState :=
  let slug := m.1
  let url := normalizeUrl m.2
  let key := (lowerStr author, url)
  if key ∈ s.seen_submissions then s
  else
    { chatter_submissions :=
        s.chatter_submissions ++ [{ twitch_user := author, url := url, slug := slug }],
      seen_submissions := key :: s.seen_submissions }

/-- One inbound chat message as `event_message` observes it: the author
name, the echo flag, and the submission-regex matches found in its text
(each a captured slug with the full matched text).  The regex matching
itself is external string scanning; the collector's behaviour is
quantified over all possible match lists. -/
structure ChatMsg where
  author : String
  echo : Bool
  urlMatches : List (String × String)
deriving DecidableEq

/-- `Bot.event_message` (bot.py:239-264) restricted to the recap fields:
echo messages are dropped, and the scan runs only while live and for
authors other than the bot account. -/
def event_message (isLiveNow : Bool) (msg : ChatMsg) (s : RecapState) : RecapState :=
  if msg.echo then s
  else if isLiveNow ∧ lowerStr msg.author ≠ "hairyrug_" then
    msg.urlMatches.foldl (fun st m => processMatch msg.author m st) s
  else s

/-- A whole live session's message stream: each message paired with the
`is_live` value at the time it is observed, starting from the live-edge
reset state. -/
def run_messages (xs : List (Bool × ChatMsg)) : RecapState :=
  xs.foldl (fun s pm => event_message pm.1 pm.2 s) recapInit

/-- The dedup key of a stored submission, as recomputed from its fields. -/
def subKey (x : Submission) : String × String := (lowerStr x.twitch_user, x.url)

/-- Invariant tying `chatter_submissions` to `_seen_submissions`: the
stored keys are pairwise distinct and every stored key has been recorded
in the seen set. -/
def RecapInv (s : RecapState) : Prop :=
  (s.chatter_submissions.map subKey).Nodup ∧
  ∀ x ∈ s.chatter_submissions, subKey x ∈ s.seen_submissions

/-! ## Helper lemmas -/

theorem categoryLoop_requests_le (resp : Nat → Option String) :
    ∀ k i, countRequests (categoryLoop resp k i).2 ≤ k := by
  intro k
  induction k with
  | zero => intro i; simp [categoryLoop, countRequests]
  | succ n ih =>
      intro i
      have hih := ih (i + 1)
      cases h : resp i with
      | some s =>
          by_cases hs : s != ""
          · simp [categoryLoop, h, hs, countRequests]
          · simp only [countRequests] at hih ⊢
            simp [categoryLoop, h, hs, List.countP_cons]
            omega
      | none =>
          simp only [countRequests] at hih ⊢
          simp [categoryLoop, h, List.countP_cons]
          omega

theorem categoryLoop_exhausted (resp : Nat → Option String) :
    ∀ k i, (∀ j, i ≤ j → j < i + k → isTruthyCat (resp j) = false) →
      (categoryLoop resp k i).1 = none := by
  intro k
  induction k with
  | zero => intro i _; simp [categoryLoop]
  | succ n ih =>
      intro i h
      have hi : isTruthyCat (resp i) = false := h i (Nat.le_refl i) (by omega)
      have hrec := ih (i + 1) fun j h1 h2 => h j (by omega) (by omega)
      cases hr : resp i with
      | some s =>
          rw [hr] at hi
          simp only [isTruthyCat] at hi
          simp only [categoryLoop, hr, hi, Bool.false_eq_true, if_false]
          exact hrec
      | none =>
          simp only [categoryLoop, hr]
          exact hrec

theorem categoryLoop_first_truthy (resp : Nat → Option String) :
    ∀ k i s, (categoryLoop resp k i).1 = some s →
      ∃ j, i ≤ j ∧ j < i + k ∧ resp j = some s ∧ s ≠ "" ∧
        ∀ m, i ≤ m → m < j → isTruthyCat (resp m) = false := by
  intro k
  induction k with
  | zero => intro i s h; simp [categoryLoop] at h
  | succ n ih =>
      intro i s h
      cases hr : resp i with
      | some t =>
          by_cases ht : t != ""
          · simp only [categoryLoop, hr, ht, if_true] at h
            obtain rfl : t = s := by simpa using h
            refine ⟨i, Nat.le_refl i, by omega, hr, by simpa using ht, ?_⟩
            intro m h1 h2; omega
          · simp only [categoryLoop, hr, ht, Bool.false_eq_true, if_false] at h
            obtain ⟨j, hj1, hj2, hj3, hj4, hj5⟩ := ih (i + 1) s h
            refine ⟨j, by omega, by omega, hj3, hj4, ?_⟩
            intro m h1 h2
            rcases Nat.eq_or_lt_of_le h1 with rfl | hlt
            · simp only [isTruthyCat, hr]
              simpa using ht
            · exact hj5 m (by omega) h2
      | none =>
          simp only [categoryLoop, hr] at h
          obtain ⟨j, hj1, hj2, hj3, hj4, hj5⟩ := ih (i + 1) s h
          refine ⟨j, by omega, by omega, hj3, hj4, ?_⟩
          intro m h1 h2
          rcases Nat.eq_or_lt_of_le h1 with rfl | hlt
          · simp [isTruthyCat, hr]
          · exact hj5 m (by omega) h2

theorem categoryLoop_sleeps (resp : Nat → Option String) :
    ∀ k i n, CatEv.sleep n ∈ (categoryLoop resp k i).2 → n = 2 := by
  intro k
  induction k with
  | zero => intro i n h; simp [categoryLoop] at h
  | succ m ih =>
      intro i n h
      cases hr : resp i with
      | some s =>
          by_cases hs : s != ""
          · simp only [categoryLoop, hr, hs, if_true] at h
            simp at h
          · simp only [categoryLoop, hr, hs, Bool.false_eq_true, if_false,
              List.mem_cons] at h
            rcases h with h | h | h
            · exact absurd h (by simp)
            · exact (CatEv.sleep.injEq n 2).mp h
            · exact ih (i + 1) n h
      | none =>
          simp only [categoryLoop, hr, List.mem_cons] at h
          rcases h with h | h | h
          · exact absurd h (by simp)
          · exact (CatEv.sleep.injEq n 2).mp h
          · exact ih (i + 1) n h

theorem countCommercials_append (a b : List AdEv) :
    countCommercials (a ++ b) = countCommercials a + countCommercials b := by
  simp [countCommercials, List.countP_append]

theorem adCycleBody_comm_le_one (l1 l2 c l3 : Bool) :
    countCommercials (adCycleBody l1 l2 c l3).1 ≤ 1 := by
  cases l1 <;> cases l2 <;> cases c <;> cases l3 <;> decide

theorem adRecurringLoop_comm_le (lives : Nat → Bool) (commStatus : Nat → Nat) :
    ∀ fuel li ci, countCommercials (adRecurringLoop lives commStatus fuel li ci) ≤ fuel := by
  intro fuel
  induction fuel with
  | zero => intro li ci; simp [adRecurringLoop, countCommercials]
  | succ n ih =>
      intro li ci
      simp only [adRecurringLoop]
      by_cases hg : lives li = true
      · rw [if_pos hg]
        set body := adCycleBody (lives (li + 1)) (lives (li + 2))
          (start_commercial 180 (commStatus ci)) (lives (li + 3)) with hbody
        by_cases hb : body.2 = true
        · rw [if_pos hb, countCommercials_append]
          have h1 : countCommercials body.1 ≤ 1 := by
            rw [hbody]; exact adCycleBody_comm_le_one _ _ _ _
          have h2 := ih (li + 4) (ci + 1)
          omega
        · rw [if_neg hb]
          have h1 : countCommercials body.1 ≤ 1 := by
            rw [hbody]; exact adCycleBody_comm_le_one _ _ _ _
          omega
      · rw [if_neg hg]
        simp [countCommercials]

theorem track_slug_nodup (u : String) (ps : List String) (h : ps.Nodup) :
    (track_slug u ps).Nodup := by
  unfold track_slug
  cases extractSlug u with
  | none => exact h
  | some slug =>
      by_cases hm : slug ∈ ps
      · simpa [hm] using h
      · simp only [hm, if_false]
        simp [List.nodup_append, h, hm]

theorem leetcode_timer_nodup (c : LtCtx) (s : TimerState)
    (h : s.stream_problems.Nodup) : ((leetcode_timer c s).stream_problems).Nodup := by
  unfold leetcode_timer
  split
  · exact h
  · split
    · split
      · split
        · exact h
        · exact h
      · exact h
    · split
      · exact h
      · split
        · exact h
        · exact track_slug_nodup _ _ h

theorem foldl_timer_nodup (cs : List LtCtx) :
    ∀ s : TimerState, s.stream_problems.Nodup →
      ((cs.foldl (fun acc c => leetcode_timer c acc) s).stream_problems).Nodup := by
  induction cs with
  | nil => intro s hs; simpa using hs
  | cons c rest ih =>
      intro s hs
      exact ih (leetcode_timer c s) (leetcode_timer_nodup c s hs)

theorem processMatch_inv (a : String) (m : String × String) (s : RecapState)
    (h : RecapInv s) : RecapInv (processMatch a m s) := by
  unfold processMatch RecapInv
  by_cases hk : (lowerStr a, normalizeUrl m.2) ∈ s.seen_submissions
  · simpa [hk] using h
  · simp only [hk, if_false]
    obtain ⟨hnd, hseen⟩ := h
    constructor
    · rw [List.map_append]
      have hnotin : (lowerStr a, normalizeUrl m.2) ∉ s.chatter_submissions.map subKey := by
        intro hmem
        obtain ⟨x, hx, hkey⟩ := List.mem_map.mp hmem
        exact hk (hkey ▸ hseen x hx)
      simp [List.nodup_append, hnd, subKey, hnotin]
    · intro x hx
      rcases List.mem_append.mp hx with hx | hx
      · exact List.mem_cons_of_mem _ (hseen x hx)
      · simp only [List.mem_singleton] at hx
        subst hx
        exact List.mem_cons_self _ _

theorem foldMatches_inv (a : String) (ms : List (String × String)) :
    ∀ s, RecapInv s → RecapInv (ms.foldl (fun st m => processMatch a m st) s) := by
  induction ms with
  | nil => intro s h; simpa using h
  | cons m rest ih =>
      intro s h
      exact ih (processMatch a m s) (processMatch_inv a m s h)

theorem event_message_inv (b : Bool) (msg : ChatMsg) (s : RecapState)
    (h : RecapInv s) : RecapInv (event_message b msg s) := by
  unfold event_message
  split
  · exact h
  · split
    · exact foldMatches_inv msg.author msg.urlMatches s h
    · exact h

theorem foldl_messages_inv (xs : List (Bool × ChatMsg)) :
    ∀ s, RecapInv s → RecapInv (xs.foldl (fun s pm => event_message pm.1 pm.2 s) s) := by
  induction xs with
  | nil => intro s h; simpa using h
  | cons x rest ih =>
      intro s h
      exact ih (event_message x.1 x.2 s) (event_message_inv x.1 x.2 s h)

theorem spotify_step_counts (last : Option String) (p : Option (Option String)) :
    ((monitor_spotify_step last p).2.countP isBcastPlaying
      = if isPlayingPoll p then 1 else 0) ∧
    ((monitor_spotify_step last p).2.countP isBcastStopped
      = if isPlayingPoll p then 0 else 1) := by
  cases p with
  | some tid =>
      by_cases hne : tid = last <;>
        simp [monitor_spotify_step, hne, isPlayingPoll, isBcastPlaying, isBcastStopped,
          List.countP_cons, List.countP_append]
  | none =>
      by_cases hne : last = none <;>
        simp [monitor_spotify_step, hne, isPlayingPoll, isBcastPlaying, isBcastStopped,
          List.countP_cons, List.countP_append]

theorem spotify_run_counts (polls : List (Option (Option String))) :
    ∀ last,
      ((monitor_spotify_run last polls).2.countP isBcastPlaying
        = polls.countP isPlayingPoll) ∧
      ((monitor_spotify_run last polls).2.countP isBcastStopped
        = polls.countP fun p => !isPlayingPoll p) := by
  induction polls with
  | nil => intro last; simp [monitor_spotify_run]
  | cons p ps ih =>
      intro last
      obtain ⟨hs1, hs2⟩ := spotify_step_counts last p
      obtain ⟨hr1, hr2⟩ := ih (monitor_spotify_step last p).1
      simp only [monitor_spotify_run, List.countP_append, List.countP_cons, hs1, hs2, hr1, hr2]
      cases hp : isPlayingPoll p <;> simp <;> omega

/-! ## Claim C1 -/

/-- Claim C1 counterexample: the claim states that on a live-to-offline
edge the handler flushes the recap, runs cleanup, cancels and awaits both
tasks, and only then sets `isLive = false`.  At a concrete state (live,
both tasks running, sink configured) the emitted trace sets `isLive =
false` at position 1, before the flush, the cleanup and the cancels, and
contains no await at all — so the claimed order is false. -/
theorem c1_counterexample :
    (monitor_step ⟨true, false, true, true, true⟩ (ProbeOutcome.ok false)).2.1 =
      [MonEv.logInfo, MonEv.setLive false, MonEv.flushRecap, MonEv.cleanup,
       MonEv.cancelAd, MonEv.cancelSpotify, MonEv.sleep 20] ∧
    (monitor_step ⟨true, false, true, true, true⟩ (ProbeOutcome.ok false)).2.1.take 2 =
      [MonEv.logInfo, MonEv.setLive false] ∧
    MonEv.setLive false ∉
      ((monitor_step ⟨true, false, true, true, true⟩ (ProbeOutcome.ok false)).2.1.drop 2) ∧
    MonEv.awaitTask ∉ (monitor_step ⟨true, false, true, true, true⟩ (ProbeOutcome.ok false)).2.1 := by
  decide

/-- Claim C1 (amended): on every live-to-offline edge the handler first
sets `isLive = false`, then flushes the RecapBuffer to the recap sink
(logged and skipped when the sink is unconfigured), then invokes the
Cleanup Action, and then cancels — without awaiting — whichever of the Ad
Scheduler and Now-Playing Poller task handles are set, clearing the
handles.  Stated for every firstCheck flag `f`, task-handle configuration
`a`, `sp` and sink configuration `r`. -/
theorem c1_amended_offline_order (f a sp r : Bool) :
    monitor_step ⟨true, f, a, sp, r⟩ (ProbeOutcome.ok false) =
      (⟨false, false, false, false, r⟩,
       [MonEv.logInfo, MonEv.setLive false]
         ++ send_recap r
         ++ [MonEv.cleanup]
         ++ (if a then [MonEv.cancelAd] else [])
         ++ (if sp then [MonEv.cancelSpotify] else [])
         ++ [MonEv.sleep 20],
       false) ∧
    (monitor_step ⟨true, f, a, sp, r⟩ (ProbeOutcome.ok false)).2.1.take 2 =
      [MonEv.logInfo, MonEv.setLive false] ∧
    MonEv.awaitTask ∉ (monitor_step ⟨true, f, a, sp, r⟩ (ProbeOutcome.ok false)).2.1 := by
  cases f <;> cases a <;> cases sp <;> cases r <;> decide

/-! ## Claim C2 -/

/-- Claim C2 counterexample: starting a second `!lt` timer while one is
active is claimed to cancel the previous one, leaving exactly one active
timer.  Two consecutive valid `!lt` invocations from the fresh state leave
both created tasks active (`[0, 1]`), nothing is ever cancelled, and in
particular the superseded timer 0 still runs, so its callbacks still
fire. -/
theorem c2_counterexample :
    (ltActive (leetcode_timer ⟨true, some "https://leetcode.com/problems/two-sum/", 30, false⟩
        (leetcode_timer ⟨true, some "https://leetcode.com/problems/two-sum/", 30, false⟩
          timerInit))).length ≠ 1 ∧
    ltActive (leetcode_timer ⟨true, some "https://leetcode.com/problems/two-sum/", 30, false⟩
        (leetcode_timer ⟨true, some "https://leetcode.com/problems/two-sum/", 30, false⟩
          timerInit)) = [0, 1] ∧
    (leetcode_timer ⟨true, some "https://leetcode.com/problems/two-sum/", 30, false⟩
        (leetcode_timer ⟨true, some "https://leetcode.com/problems/two-sum/", 30, false⟩
          timerInit)).ltCancelled = [] := by
  decide

/-- Claim C2 (amended): starting a second timer of the same kind while one
is active does NOT cancel the previous one — for both `!lt` and
`!ltlockin`, a valid start leaves the cancelled set unchanged, overwrites
the task handle with the freshly created task, and every previously active
timer of that kind stays active (so the superseded timer's callbacks still
fire); only an explicit clear request cancels the referenced timer. -/
theorem c2_amended_start_does_not_cancel :
    (∀ (c : LtCtx) (s : TimerState) (u : String),
      c.privileged = true → isClearArg c.url = false → c.url = some u →
      (u == "") = false → 0 < c.minutes → c.minutes ≤ 180 →
        (leetcode_timer c s).ltCancelled = s.ltCancelled ∧
        (leetcode_timer c s).lt_task = some s.ltNext ∧
        (leetcode_timer c s).ltStarted = s.ltStarted ++ [s.ltNext] ∧
        ∀ id, id ∈ ltActive s → id ∈ ltActive (leetcode_timer c s)) ∧
    (∀ (c : LockCtx) (s : TimerState) (m : Int),
      c.privileged = true →
      (c.args.length == 1 && lowerStr (c.args.headD "") == "clear") = false →
      ¬ c.args.length < 2 → c.parsedMinutes = some m → 0 < m → m ≤ 180 →
        (leetcode_lockin c s).1.lockCancelled = s.lockCancelled ∧
        (leetcode_lockin c s).1.ltlock_task = some s.lockNext ∧
        (leetcode_lockin c s).1.lockStarted = s.lockStarted ++ [s.lockNext] ∧
        ∀ id, id ∈ lockActive s → id ∈ lockActive (leetcode_lockin c s).1) := by
  constructor
  · intro c s u hp hc hu hne hm1 hm2
    have h1 : decide (c.minutes ≤ 0) = false := decide_eq_false (by omega)
    have h2 : decide (180 < c.minutes) = false := decide_eq_false (by omega)
    rw [hu] at hc
    simp only [leetcode_timer, hp, hc, hu, hne, h1, h2, Bool.not_true, Bool.false_eq_true,
      if_false, Bool.or_self, Bool.or_false, Bool.false_or]
    refine ⟨trivial, trivial, trivial, ?_⟩
    intro id hid
    simp only [ltActive, List.mem_filter, List.mem_append, decide_eq_true_eq] at *
    exact ⟨Or.inl hid.1, hid.2⟩
  · intro c s m hp hc hlen hm hm1 hm2
    have h1 : decide (m ≤ 0) = false := decide_eq_false (by omega)
    have h2 : decide (180 < m) = false := decide_eq_false (by omega)
    simp only [leetcode_lockin, hp, hc, hlen, hm, h1, h2, Bool.not_true, Bool.false_eq_true,
      if_false, Bool.or_self, Bool.or_false, Bool.false_or]
    refine ⟨trivial, trivial, trivial, ?_⟩
    intro id hid
    simp only [lockActive, List.mem_filter, List.mem_append, decide_eq_true_eq] at *
    exact ⟨Or.inl hid.1, hid.2⟩

/-- Claim C2 witness: the amended theorem applied to a concrete second
`!lt` start over the state produced by a first start. -/
theorem c2_amended_start_does_not_cancel_witness :
    (leetcode_timer ⟨true, some "u1", 30, false⟩
      (leetcode_timer ⟨true, some "u1", 30, false⟩ timerInit)).ltCancelled = [] ∧
    0 ∈ ltActive (leetcode_timer ⟨true, some "u1", 30, false⟩
      (leetcode_timer ⟨true, some "u1", 30, false⟩ timerInit)) := by
  have h := c2_amended_start_does_not_cancel.1 ⟨true, some "u1", 30, false⟩
    (leetcode_timer ⟨true, some "u1", 30, false⟩ timerInit) "u1"
    rfl (by decide) rfl (by decide) (by decide) (by decide)
  exact ⟨by rw [h.1]; decide, h.2.2.2 0 (by decide)⟩

/-! ## Claim C3 -/

/-- Claim C3: the Cleanup Action issues a VOD delete request only when
`get_current_category` returns exactly `"Fitness & Health"`; any other
category value (including the exhausted-retries value) yields zero delete
requests; on a match with a successful fetch it is a no-op when no archived
recording exists, and deletes exactly the single most recent recording
otherwise. -/
theorem c3_cleanup_delete_gated (resp : Nat → Option String) (st : Nat)
    (videos : List String) :
    (delete_latest_vod resp st videos ≠ [] →
      (get_current_category resp).1 = some "Fitness & Health") ∧
    ((get_current_category resp).1 ≠ some "Fitness & Health" →
      delete_latest_vod resp st videos = []) ∧
    ((get_current_category resp).1 = some "Fitness & Health" → st = 200 →
      videos = [] → delete_latest_vod resp st videos = []) ∧
    (∀ v rest, (get_current_category resp).1 = some "Fitness & Health" → st = 200 →
      videos = v :: rest → delete_latest_vod resp st videos = [v]) := by
  by_cases hc : (get_current_category resp).1 = some "Fitness & Health"
  · by_cases hst : st = 200
    · subst hst
      cases videos with
      | nil =>
          refine ⟨fun h => hc, fun h => absurd hc h, fun _ _ _ => ?_, fun v rest _ _ h => ?_⟩
          · simp [delete_latest_vod, hc]
          · exact absurd h (by simp)
      | cons v rest =>
          refine ⟨fun h => hc, fun h => absurd hc h, fun _ _ h => ?_, ?_⟩
          · exact absurd h (by simp)
          · intro v2 rest2 _ _ h
            obtain ⟨rfl, rfl⟩ : v = v2 ∧ rest = rest2 := by
              constructor <;> [exact (List.cons.injEq v rest v2 rest2 ▸ h).1;
                exact (List.cons.injEq v rest v2 rest2 ▸ h).2]
            simp [delete_latest_vod, hc]
    · refine ⟨fun h => hc, fun h => absurd hc h, fun _ h _ => absurd h hst,
        fun v rest _ h _ => absurd h hst⟩
  · have hz : delete_latest_vod resp st videos = [] := by
      simp [delete_latest_vod, hc]
    refine ⟨fun h => absurd hz h, fun _ => hz, fun h _ _ => absurd h hc,
      fun v rest h _ _ => absurd h hc⟩

/-- Claim C3 witness: the gate evaluated at concrete category observations
— a match deletes the most recent recording, a different category and an
exhausted poll delete nothing. -/
theorem c3_cleanup_delete_gated_witness :
    delete_latest_vod (fun _ => some "Fitness & Health") 200 ["vod123", "vod122"] = ["vod123"] ∧
    delete_latest_vod (fun _ => some "Science & Technology") 200 ["vod123"] = [] ∧
    delete_latest_vod (fun _ => none) 200 ["vod123"] = [] :=
  ⟨(c3_cleanup_delete_gated (fun _ => some "Fitness & Health") 200 ["vod123", "vod122"]).2.2.2
      "vod123" ["vod122"] (by decide) rfl rfl,
   (c3_cleanup_delete_gated (fun _ => some "Science & Technology") 200 ["vod123"]).2.1 (by decide),
   (c3_cleanup_delete_gated (fun _ => none) 200 ["vod123"]).2.1 (by decide)⟩

/-! ## Claim C4 -/

/-- Claim C4 counterexample: after exhausting all 5 attempts without a
truthy category value, `get_current_category` is claimed to return the
string `"unknown"`; on the all-empty observation it returns `none` (the
code's `return None`), not `some "unknown"`, after the 5 requests each
followed by a 2-unit sleep. -/
theorem c4_counterexample :
    (get_current_category (fun _ => none)).1 ≠ some "unknown" ∧
    (get_current_category (fun _ => none)).1 = none ∧
    (get_current_category (fun _ => none)).2 =
      [CatEv.request 0, CatEv.sleep 2, CatEv.request 1, CatEv.sleep 2, CatEv.request 2,
       CatEv.sleep 2, CatEv.request 3, CatEv.sleep 2, CatEv.request 4, CatEv.sleep 2] := by
  decide

/-- Claim C4 (amended): `get_current_category` performs at most 5 request
attempts, every recorded delay is of 2 time-units, the returned value is
the first non-empty category value seen (everything before it was empty or
absent), and exhausting all 5 attempts without a non-empty value returns
`None` — no value — rather than the string `"unknown"`. -/
theorem c4_amended_category_retry :
    (∀ resp, countRequests (get_current_category resp).2 ≤ 5) ∧
    (∀ resp s, (get_current_category resp).1 = some s →
      ∃ j, j < 5 ∧ resp j = some s ∧ s ≠ "" ∧
        ∀ m, m < j → isTruthyCat (resp m) = false) ∧
    (∀ resp, (∀ j, j < 5 → isTruthyCat (resp j) = false) →
      (get_current_category resp).1 = none) ∧
    (∀ resp n, CatEv.sleep n ∈ (get_current_category resp).2 → n = 2) := by
  refine ⟨fun resp => categoryLoop_requests_le resp 5 0, ?_, ?_, ?_⟩
  · intro resp s h
    obtain ⟨j, hj1, hj2, hj3, hj4, hj5⟩ := categoryLoop_first_truthy resp 5 0 s h
    exact ⟨j, by omega, hj3, hj4, fun m hm => hj5 m (by omega) hm⟩
  · intro resp h
    exact categoryLoop_exhausted resp 5 0 fun j _ hj => h j (by omega)
  · intro resp n h
    exact categoryLoop_sleeps resp 5 0 n h

/-- Claim C4 witness: the amended theorem applied at concrete observation
sequences — an all-empty sequence returns no value, and a bounded request
count on a sequence whose third attempt is truthy. -/
theorem c4_amended_category_retry_witness :
    (get_current_category (fun _ => none)).1 = none ∧
    countRequests (get_current_category
      (fun i => if i = 2 then some "Just Chatting" else some "")).2 ≤ 5 :=
  ⟨c4_amended_category_retry.2.2.1 (fun _ => none) (fun j _ => rfl),
   c4_amended_category_retry.1 (fun i => if i = 2 then some "Just Chatting" else some "")⟩

/-! ## Claim C5 -/

/-- Claim C5 counterexample: the claim says a `NowPlaying isPlaying=true`
message is broadcast only when the track identity differs from the last
broadcast one, and that the `isPlaying=false` message is sent exactly once
when playback stops, not on subsequent idle polls.  A poll with the same
track id as the stored last id still broadcasts (while emitting no change
log, which shows the identity did not differ), an idle poll with an idle
previous state still broadcasts, and two idle polls after playback
broadcast `isPlaying=false` twice. -/
theorem c5_counterexample :
    SpEv.bcastPlaying (some "a") ∈ (monitor_spotify_step (some "a") (some (some "a"))).2 ∧
    SpEv.logChange ∉ (monitor_spotify_step (some "a") (some (some "a"))).2 ∧
    SpEv.bcastStopped ∈ (monitor_spotify_step none none).2 ∧
    (monitor_spotify_run (some "a") [none, none]).2.countP isBcastStopped = 2 := by
  decide

/-- Claim C5 (amended): on every poll with something playing a `NowPlaying
isPlaying=true` message is broadcast, whether or not the identity changed
(only the change log line is gated on the identity comparison), and on
every idle poll `NowPlaying{isPlaying:false}` is broadcast, whether or not
the previous poll had something playing (only the stopped log line is
emitted exactly at the transition). -/
theorem c5_amended_broadcast_every_poll :
    (∀ last polls, (monitor_spotify_run last polls).2.countP isBcastPlaying
      = polls.countP isPlayingPoll) ∧
    (∀ last polls, (monitor_spotify_run last polls).2.countP isBcastStopped
      = polls.countP fun p => !isPlayingPoll p) ∧
    (∀ last tid, SpEv.logChange ∈ (monitor_spotify_step last (some tid)).2 ↔ tid ≠ last) ∧
    (∀ last, SpEv.logStopped ∈ (monitor_spotify_step last none).2 ↔ last ≠ none) := by
  refine ⟨fun last polls => (spotify_run_counts polls last).1,
    fun last polls => (spotify_run_counts polls last).2, ?_, ?_⟩
  · intro last tid
    by_cases h : tid = last <;> simp [monitor_spotify_step, h]
  · intro last
    by_cases h : last = none <;> simp [monitor_spotify_step, h]

/-! ## Claim C6 -/

/-- Claim C6 counterexample: `is_stream_live` is claimed never to propagate
an exception to its caller; on a transport error (the request raises before
an HTTP status exists) it evaluates to a raised exception, not to any
boolean result. -/
theorem c6_counterexample :
    is_stream_live none = Except.error () ∧
    is_stream_live none ≠ Except.ok false ∧
    is_stream_live none ≠ Except.ok true := by
  refine ⟨rfl, fun h => ?_, fun h => ?_⟩ <;> simp [is_stream_live] at h

/-- Claim C6 (amended): for every actual HTTP response, `is_stream_live`
returns false on any non-200 status and true exactly on a 200 response
with a non-empty data list (fail-closed); a transport error, however,
raises out of the function to its caller — the monitor loop catches and
logs it. -/
theorem c6_amended_fail_closed :
    (∀ status streams, is_stream_live (some (status, streams))
      = Except.ok (decide (status = 200) && decide (0 < streams.length))) ∧
    is_stream_live none = Except.error () := by
  constructor
  · intro status streams
    by_cases h : status = 200 <;> simp [is_stream_live, h]
  · rfl

/-! ## Claim C7 -/

/-- Claim C7 counterexample: when cancelled, the monitor loop is claimed to
propagate cancellation to the Ad Scheduler and Now-Playing Poller tasks
before exiting.  From a state where both task handles are set, the
cancellation path exits (`break`) emitting only its log line — no
cancellation of either dependent task — and leaves both handles set. -/
theorem c7_counterexample :
    (monitor_step ⟨true, false, true, true, true⟩ ProbeOutcome.cancelledError).2.2 = true ∧
    (monitor_step ⟨true, false, true, true, true⟩ ProbeOutcome.cancelledError).1.adTask = true ∧
    (monitor_step ⟨true, false, true, true, true⟩ ProbeOutcome.cancelledError).1.spotifyTask = true ∧
    (monitor_step ⟨true, false, true, true, true⟩ ProbeOutcome.cancelledError).2.1 =
      [MonEv.logCancelled] ∧
    MonEv.cancelAd ∉ (monitor_step ⟨true, false, true, true, true⟩
      ProbeOutcome.cancelledError).2.1 ∧
    MonEv.cancelSpotify ∉ (monitor_step ⟨true, false, true, true, true⟩
      ProbeOutcome.cancelledError).2.1 := by
  decide

/-- Claim C7 (amended): when the monitor loop itself is cancelled it logs
and exits immediately, leaving its state — including any set task handles —
untouched and cancelling neither the Ad Scheduler nor the Now-Playing
Poller task; their teardown is left to the runtime's shutdown. -/
theorem c7_amended_exit_without_propagation (s : MonState) :
    monitor_step s ProbeOutcome.cancelledError = (s, [MonEv.logCancelled], true) ∧
    MonEv.cancelAd ∉ (monitor_step s ProbeOutcome.cancelledError).2.1 ∧
    MonEv.cancelSpotify ∉ (monitor_step s ProbeOutcome.cancelledError).2.1 := by
  refine ⟨rfl, ?_, ?_⟩ <;> simp [monitor_step]

/-! ## Claim C8 -/

/-- Claim C8: each recurring ad cycle is — wait 59×60, recheck liveness,
announce the one-minute warning, wait 60, recheck, request the commercial,
announce start, wait 180, recheck, announce over; the pass continues
exactly when every liveness check and the commercial request succeed (so
the loop exits when one fails), and the commercial is requested at most
once per pass — a failed trigger is never retried within the cycle, and a
run of the loop with `fuel` passes issues at most `fuel` requests. -/
theorem c8_ad_cycle_structure :
    (∀ l1 l2 c l3, l1 = true → l2 = true → c = true → l3 = true →
      adCycleBody l1 l2 c l3 =
        ([AdEv.sleep 3540, AdEv.warn, AdEv.sleep 60, AdEv.reqCommercial 180,
          AdEv.announceStart, AdEv.sleep 180, AdEv.announceOver], true)) ∧
    (∀ l1 l2 c l3, (adCycleBody l1 l2 c l3).2 = (l1 && l2 && c && l3)) ∧
    (∀ l1 l2 c l3, countCommercials (adCycleBody l1 l2 c l3).1 ≤ 1) ∧
    (∀ lives commStatus fuel li ci,
      countCommercials (adRecurringLoop lives commStatus fuel li ci) ≤ fuel) := by
  refine ⟨?_, ?_, ?_, ?_⟩
  · intro l1 l2 c l3 h1 h2 h3 h4
    subst h1; subst h2; subst h3; subst h4
    rfl
  · intro l1 l2 c l3
    cases l1 <;> cases l2 <;> cases c <;> cases l3 <;> rfl
  · exact adCycleBody_comm_le_one
  · exact fun lives commStatus fuel li ci => adRecurringLoop_comm_le lives commStatus fuel li ci

/-- Claim C8 witness: the cycle shape at all-successful checks, and the
request bound for a concrete three-pass run. -/
theorem c8_ad_cycle_structure_witness :
    adCycleBody true true true true =
      ([AdEv.sleep 3540, AdEv.warn, AdEv.sleep 60, AdEv.reqCommercial 180,
        AdEv.announceStart, AdEv.sleep 180, AdEv.announceOver], true) ∧
    countCommercials (adRecurringLoop (fun _ => true) (fun _ => 200) 3 0 0) ≤ 3 :=
  ⟨c8_ad_cycle_structure.1 true true true true rfl rfl rfl rfl,
   c8_ad_cycle_structure.2.2.2 (fun _ => true) (fun _ => 200) 3 0 0⟩

/-! ## Claim C9 -/

/-- Claim C9: over every sequence of chat messages observed during one
live session (each with the liveness flag under which it was received),
the `(lowercased user, normalized URL)` key of every entry of the recap
submissions list is distinct — a given (user, normalized URL) pair appears
at most once no matter how many duplicate messages arrive. -/
theorem c9_submission_dedup (xs : List (Bool × ChatMsg)) :
    ((run_messages xs).chatter_submissions.map subKey).Nodup :=
  (foldl_messages_inv xs recapInit
    ⟨List.nodup_nil, fun x hx => absurd hx (List.not_mem_nil x)⟩).1

/-! ## Claim C10 -/

/-- Claim C10: over every sequence of `!lt` invocations in a session
starting from the fresh state, the recap problems list `stream_problems`
contains no duplicate slug — a slug already present is never appended
again. -/
theorem c10_problem_slug_dedup (cs : List LtCtx) :
    ((cs.foldl (fun acc c => leetcode_timer c acc) timerInit).stream_problems).Nodup :=
  foldl_timer_nodup cs timerInit List.nodup_nil

end TwitchBot
